import Mathlib

/-
Verification of the conversation-state engine of the waba-gui repository.

The definitions below are shallow embeddings of the SQL stored procedures
(schema dump and MESSAGE_TRACKING_MIGRATION.sql) and of the TypeScript route
handlers and components. Timestamps are modelled as natural numbers, rows of
the messages table as a structure, and each SQL function or route handler as
an executable Lean function over lists of rows.
-/

namespace Waba

/-- Row of the public.messages table (schema dump, CREATE TABLE messages).
The timestamp column is modelled as a natural number; read_at is NULL until
the row is marked read. -/
structure Message where
  id : String
  sender_id : String
  receiver_id : String
  content : String
  timestamp : Nat
  is_sent_by_me : Bool
  message_type : String
  is_read : Bool
  read_at : Option Nat
deriving DecidableEq, Repr

/-- get_unread_count(user_id, other_user_id) from MESSAGE_TRACKING_MIGRATION.sql:
COUNT of rows with receiver_id = user_id, sender_id = other_user_id and
is_read = FALSE. -/
def get_unread_count (msgs : List Message) (user_id other_user_id : String) : Nat :=
  (msgs.filter (fun m => m.receiver_id == user_id && m.sender_id == other_user_id && !m.is_read)).length

/-- The unread_counts CTE of the user_conversations view in the schema dump:
SELECT sender_id, count(*) FROM messages WHERE is_read = false GROUP BY
sender_id.  The count for a sender is the number of unread rows from that
sender, with no filter on receiver_id. -/
def user_conversations_unread_count (msgs : List Message) (sender : String) : Nat :=
  (msgs.filter (fun m => m.sender_id == sender && !m.is_read)).length

/-- Update applied to one row by mark_messages_as_read when the row matches
the predicate receiver_id = current_user_id AND sender_id = other_user_id AND
is_read = FALSE; non-matching rows are untouched. -/
def markOne (current_user_id other_user_id : String) (now : Nat) (m : Message) : Message :=
  if m.receiver_id == current_user_id && m.sender_id == other_user_id && !m.is_read then
    { m with is_read := true, read_at := some now }
  else m

/-- mark_messages_as_read(current_user_id, other_user_id) from the schema dump:
UPDATE messages SET is_read = TRUE, read_at = NOW() WHERE receiver_id =
current_user_id AND sender_id = other_user_id AND is_read = FALSE, returning
ROW_COUNT.  Returns the affected-row count together with the updated table. -/
def mark_messages_as_read (msgs : List Message) (current_user_id other_user_id : String)
    (now : Nat) : Nat × List Message :=
  ((msgs.filter (fun m => m.receiver_id == current_user_id && m.sender_id == other_user_id && !m.is_read)).length,
   msgs.map (markOne current_user_id other_user_id now))

lemma markOne_pred_false (cur other : String) (t : Nat) (m : Message) :
    ((markOne cur other t m).receiver_id == cur && (markOne cur other t m).sender_id == other
      && !(markOne cur other t m).is_read) = false := by
  unfold markOne
  by_cases h : (m.receiver_id == cur && m.sender_id == other && !m.is_read) = true
  · rw [if_pos h]
    simp
  · rw [if_neg h]
    simpa using h

lemma markOne_of_pred_false (cur other : String) (t : Nat) (m : Message)
    (h : (m.receiver_id == cur && m.sender_id == other && !m.is_read) = false) :
    markOne cur other t m = m := by
  unfold markOne
  rw [h]
  simp

lemma markOne_fixed (cur other : String) (t1 t2 : Nat) (m : Message) :
    markOne cur other t2 (markOne cur other t1 m) = markOne cur other t1 m :=
  markOne_of_pred_false cur other t2 (markOne cur other t1 m)
    (markOne_pred_false cur other t1 m)

/-- C1 counterexample row: an unread message from sender YY to receiver ZZ. -/
def driftMsg : Message :=
  { id := "m9", sender_id := "YY", receiver_id := "ZZ", content := "hi",
    timestamp := 3, is_sent_by_me := false, message_type := "text",
    is_read := false, read_at := none }

/-- Claim C1 counterexample: with a single unread message from YY addressed to
ZZ, the list-aggregate path (user_conversations view) reports unread_count 1
for YY while the direct path get_unread_count(XX, YY) reports 0 — the two
call sites drift, refuting the claim that they agree for every owner and
counterparty. -/
theorem unread_drift_cex :
    user_conversations_unread_count [driftMsg] "YY" = 1 ∧
    get_unread_count [driftMsg] "XX" "YY" = 0 := by
  decide

/-- Claim C1 (amended): the user_conversations view counts every unread
message of a sender regardless of receiver, so for any owner X and
counterparty Y the view's unread_count for Y equals get_unread_count(X, Y)
plus the number of unread messages from Y addressed to receivers other than
X; the two call sites agree exactly when that surplus is zero. -/
theorem view_unread_decomposition (msgs : List Message) (X Y : String) :
    user_conversations_unread_count msgs Y =
      get_unread_count msgs X Y +
        (msgs.filter (fun m => m.sender_id == Y && !m.is_read && m.receiver_id != X)).length := by
  induction msgs with
  | nil => rfl
  | cons m rest ih =>
    simp only [user_conversations_unread_count, get_unread_count, List.filter_cons] at *
    by_cases h1 : m.sender_id = Y <;> by_cases h2 : m.is_read = true <;>
      by_cases h3 : m.receiver_id = X <;>
        simp [h1, h2, h3, List.length_cons] <;> omega

/-- Claim C2: mark_messages_as_read returns the number of rows matching
receiver = owner, sender = counterparty, is_read = false (the same count as
get_unread_count); after it runs that count is 0; an immediately repeated
call returns 0 and leaves the table — in particular every read_at — exactly
as it was; matching rows are re-inserted marked read with read_at = now and
non-matching rows are untouched. -/
theorem mark_messages_as_read_spec (msgs : List Message) (cur other : String) (t1 t2 : Nat) :
    (mark_messages_as_read msgs cur other t1).1 = get_unread_count msgs cur other ∧
    get_unread_count (mark_messages_as_read msgs cur other t1).2 cur other = 0 ∧
    mark_messages_as_read (mark_messages_as_read msgs cur other t1).2 cur other t2
      = (0, (mark_messages_as_read msgs cur other t1).2) ∧
    (∀ m ∈ msgs,
      ((m.receiver_id == cur && m.sender_id == other && !m.is_read) = true →
        { m with is_read := true, read_at := some t1 } ∈ (mark_messages_as_read msgs cur other t1).2) ∧
      ((m.receiver_id == cur && m.sender_id == other && !m.is_read) = false →
        m ∈ (mark_messages_as_read msgs cur other t1).2)) := by
  have hfilter : ((mark_messages_as_read msgs cur other t1).2.filter
      (fun m => m.receiver_id == cur && m.sender_id == other && !m.is_read)) = [] := by
    rw [List.filter_eq_nil_iff]
    intro a ha
    simp only [mark_messages_as_read, List.mem_map] at ha
    obtain ⟨b, _, hb⟩ := ha
    subst hb
    simp [markOne_pred_false]
  refine ⟨rfl, ?_, ?_, ?_⟩
  · simp [get_unread_count, hfilter]
  · unfold mark_messages_as_read
    refine Prod.ext ?_ ?_
    · simpa [mark_messages_as_read] using congrArg List.length hfilter
    · simp only [mark_messages_as_read, List.map_map]
      exact List.map_congr_left (fun m _ => markOne_fixed cur other t1 t2 m)
  · intro m hm
    constructor
    · intro hp
      simp only [mark_messages_as_read, List.mem_map]
      refine ⟨m, hm, ?_⟩
      unfold markOne
      rw [hp]
      simp
    · intro hp
      simp only [mark_messages_as_read, List.mem_map]
      refine ⟨m, hm, ?_⟩
      unfold markOne
      rw [hp]
      simp

/-- Row returned by get_conversation_messages in the schema dump; the
is_sent_by_me column is computed in the SELECT, not read from the table. -/
structure ConversationRow where
  id : String
  sender_id : String
  receiver_id : String
  content : String
  message_timestamp : Nat
  is_sent_by_me : Bool
  message_type : String
  is_read : Bool
  read_at : Option Nat
deriving DecidableEq, Repr

/-- Projection of one messages row in get_conversation_messages: every column
is copied and is_sent_by_me is computed as (m.sender_id != other_user_id). -/
def toConversationRow (other_user_id : String) (m : Message) : ConversationRow :=
  { id := m.id, sender_id := m.sender_id, receiver_id := m.receiver_id,
    content := m.content, message_timestamp := m.timestamp,
    is_sent_by_me := m.sender_id != other_user_id,
    message_type := m.message_type, is_read := m.is_read, read_at := m.read_at }

/-- Ordering used by the ORDER BY m.timestamp ASC clause. -/
def rowLe (a b : ConversationRow) : Prop :=
  a.message_timestamp ≤ b.message_timestamp

instance : DecidableRel rowLe := fun a b => Nat.decLe a.message_timestamp b.message_timestamp

instance : IsTotal ConversationRow rowLe :=
  ⟨fun a b => Nat.le_total a.message_timestamp b.message_timestamp⟩

instance : IsTrans ConversationRow rowLe :=
  ⟨fun _ _ _ => Nat.le_trans⟩

/-- get_conversation_messages(other_user_id, current_user_phone) from the
schema dump: SELECT ... FROM messages m WHERE m.sender_id = other_user_id OR
m.receiver_id = other_user_id ORDER BY m.timestamp ASC, with is_sent_by_me
computed as (m.sender_id != other_user_id).  The current_user_phone
parameter defaults to NULL and is never used by the function body. -/
def get_conversation_messages (msgs : List Message)
    (other_user_id current_user_phone : String) : List ConversationRow :=
  List.insertionSort rowLe
    ((msgs.filter (fun m => m.sender_id == other_user_id || m.receiver_id == other_user_id)).map
      (toConversationRow other_user_id))

/-- C3 counterexample row: a message from third party C to B. -/
def thirdPartyMsg : Message :=
  { id := "m1", sender_id := "C", receiver_id := "B", content := "hey",
    timestamp := 5, is_sent_by_me := false, message_type := "text",
    is_read := false, read_at := none }

/-- Claim C3 counterexample: caller A requesting the conversation with B
receives the message C sent to B — a message whose endpoint set is not
A,B — and its is_sent_by_me flag is true even though the sender C is not
the caller A.  Both halves of the claim fail on this input. -/
theorem get_conversation_messages_third_party_cex :
    get_conversation_messages [thirdPartyMsg] "B" "A" = [toConversationRow "B" thirdPartyMsg] ∧
    (toConversationRow "B" thirdPartyMsg).is_sent_by_me = true ∧
    (toConversationRow "B" thirdPartyMsg).sender_id ≠ "A" ∧
    (toConversationRow "B" thirdPartyMsg).sender_id ≠ "B" := by
  refine ⟨rfl, rfl, ?_, ?_⟩ <;> decide

/-- Claim C3 (amended): get_conversation_messages(other, current) returns
exactly the projections of the messages in which other appears as sender or
as receiver — including messages that involve a third party — ordered
ascending by timestamp, and each returned row's is_sent_by_me equals
(sender_id != other), not a comparison against the caller's own party. -/
theorem get_conversation_messages_spec (msgs : List Message) (other cur : String) :
    List.Sorted rowLe (get_conversation_messages msgs other cur) ∧
    (∀ r, r ∈ get_conversation_messages msgs other cur ↔
      ∃ m ∈ msgs, (m.sender_id = other ∨ m.receiver_id = other) ∧
        r = toConversationRow other m) ∧
    (∀ r ∈ get_conversation_messages msgs other cur,
      r.is_sent_by_me = (r.sender_id != other)) := by
  have hmem : ∀ r, r ∈ get_conversation_messages msgs other cur ↔
      ∃ m ∈ msgs, (m.sender_id = other ∨ m.receiver_id = other) ∧
        r = toConversationRow other m := by
    intro r
    unfold get_conversation_messages
    rw [List.mem_insertionSort, List.mem_map]
    constructor
    · rintro ⟨m, hm, hr⟩
      rw [List.mem_filter] at hm
      refine ⟨m, hm.1, ?_, hr.symm⟩
      simpa [Bool.or_eq_true, beq_iff_eq] using hm.2
    · rintro ⟨m, hm, hcond, hr⟩
      refine ⟨m, ?_, hr.symm⟩
      rw [List.mem_filter]
      exact ⟨hm, by simpa [Bool.or_eq_true, beq_iff_eq] using hcond⟩
  refine ⟨List.sorted_insertionSort rowLe _, hmem, ?_⟩
  intro r hr
  obtain ⟨m, _, _, hrm⟩ := (hmem r).mp hr
  subst hrm
  rfl

/-- Errors raised by the message store on append. -/
inductive AppendError where
  | DuplicateMessage
deriving DecidableEq, Repr

/-- INSERT into the messages table under the messages_pkey primary-key
constraint on id: the insert fails with a duplicate-key error when a row
with the same id already exists, otherwise the row is appended. -/
def insertMessage (msgs : List Message) (m : Message) : Except AppendError (List Message) :=
  if msgs.any (fun x => x.id == m.id) then Except.error AppendError.DuplicateMessage
  else Except.ok (msgs ++ [m])

/-- One iteration of the webhook POST loop for a message (part_007): the
insert error, if any, is only logged and the loop continues; the handler
always falls through to returning the HTTP 200 acknowledgement. -/
def webhookStoreStep (msgs : List Message) (m : Message) : List Message × Nat :=
  match insertMessage msgs m with
  | Except.ok s => (s, 200)
  | Except.error _ => (msgs, 200)

/-- Claim C4: appending a message with a fresh id succeeds; appending the
exact duplicate then fails with DuplicateMessage; the store afterwards holds
exactly one row with that id; and the webhook delivery carrying the
duplicate is still acknowledged with HTTP 200. -/
theorem append_duplicate_spec (msgs : List Message) (m : Message)
    (hfresh : msgs.any (fun x => x.id == m.id) = false) :
    insertMessage msgs m = Except.ok (msgs ++ [m]) ∧
    insertMessage (msgs ++ [m]) m = Except.error AppendError.DuplicateMessage ∧
    ((msgs ++ [m]).filter (fun x => x.id == m.id)).length = 1 ∧
    webhookStoreStep (msgs ++ [m]) m = (msgs ++ [m], 200) := by
  have hdup : insertMessage (msgs ++ [m]) m = Except.error AppendError.DuplicateMessage := by
    unfold insertMessage
    rw [if_pos]
    simp [List.any_append]
  refine ⟨?_, hdup, ?_, ?_⟩
  · unfold insertMessage
    rw [hfresh]
    simp
  · rw [List.filter_append]
    have hnil : msgs.filter (fun x => x.id == m.id) = [] := by
      rw [List.filter_eq_nil_iff]
      intro a ha
      have := List.any_eq_false.mp hfresh a ha
      simpa using this
    simp [hnil]
  · unfold webhookStoreStep
    rw [hdup]

/-- Concrete inbound message used to witness the duplicate-append theorem. -/
def wMsg : Message :=
  { id := "wamid.AAA", sender_id := "15551234567", receiver_id := "owner-1",
    content := "Hi", timestamp := 100, is_sent_by_me := false,
    message_type := "text", is_read := false, read_at := none }

/-- Witness for Claim C4 at a concrete inbound message in an empty store. -/
theorem append_duplicate_spec_witness :
    insertMessage ([] : List Message) wMsg = Except.ok (([] : List Message) ++ [wMsg]) ∧
    insertMessage (([] : List Message) ++ [wMsg]) wMsg = Except.error AppendError.DuplicateMessage ∧
    ((([] : List Message) ++ [wMsg]).filter (fun x => x.id == wMsg.id)).length = 1 ∧
    webhookStoreStep (([] : List Message) ++ [wMsg]) wMsg = (([] : List Message) ++ [wMsg], 200) :=
  append_duplicate_spec [] wMsg (by decide)

/-- Receiver resolution in the webhook POST handler (part_007): the
configured WHATSAPP_BUSINESS_OWNER_ID when set; otherwise the first stored
user whose id differs from the sender; otherwise the placeholder account
whatsapp-business-account.  No sender/receiver comparison is made on the
configured value. -/
def resolveWebhookReceiver (businessOwnerId : Option String) (userIds : List String)
    (sender : String) : String :=
  match businessOwnerId with
  | some b => b
  | none =>
    match (userIds.filter (fun u => u != sender)).head? with
    | some u => u
    | none => "whatsapp-business-account"

/-- messageObject built by the webhook POST handler (part_007): is_sent_by_me
is false, and is_read is absent from the insert, so the messages table
default false applies. -/
def webhookMessageObject (mid sender receiver content : String) (ts : Nat)
    (mtype : String) : Message :=
  { id := mid, sender_id := sender, receiver_id := receiver, content := content,
    timestamp := ts, is_sent_by_me := false, message_type := mtype,
    is_read := false, read_at := none }

/-- messageObject built by the send-message POST route (part_006, text send):
is_read is absent from the insert, so the messages table default false
applies. -/
def sendMessageObject (mid senderId toId content : String) (ts : Nat) : Message :=
  { id := mid, sender_id := senderId, receiver_id := toId, content := content,
    timestamp := ts, is_sent_by_me := true, message_type := "text",
    is_read := false, read_at := none }

/-- messageObject built by the send-template POST route (part_004):
is_read is set to true explicitly. -/
def sendTemplateObject (mid userId toId content : String) (ts : Nat) : Message :=
  { id := mid, sender_id := userId, receiver_id := toId, content := content,
    timestamp := ts, is_sent_by_me := true, message_type := "template",
    is_read := true, read_at := none }

/-- messageObject built by the broadcast route's template flow (part_005):
is_read is set to true explicitly. -/
def broadcastTemplateObject (mid userId toId content : String) (ts : Nat) : Message :=
  { id := mid, sender_id := userId, receiver_id := toId, content := content,
    timestamp := ts, is_sent_by_me := true, message_type := "template",
    is_read := true, read_at := none }

/-- messageObject built by the broadcast route's text flow (part_005):
is_read is set to true explicitly. -/
def broadcastTextObject (mid userId toId content : String) (ts : Nat) : Message :=
  { id := mid, sender_id := userId, receiver_id := toId, content := content,
    timestamp := ts, is_sent_by_me := true, message_type := "text",
    is_read := true, read_at := none }

/-- fallbackMessage built by handleSendMessage in the chat page (part_003)
when the send-message API reports failure; is_read is absent, so the table
default false applies. -/
def fallbackMessageObject (fid userId toId content : String) (ts : Nat) : Message :=
  { id := fid, sender_id := userId, receiver_id := toId, content := content,
    timestamp := ts, is_sent_by_me := true, message_type := "text",
    is_read := false, read_at := none }

/-- A fetch Response is ok exactly when its status is in the 2xx range. -/
def httpOk (status : Nat) : Bool :=
  200 ≤ status && status < 300

/-- The send-message POST route (part_006): when the upstream WhatsApp call
is not ok the route returns the upstream status before any database insert;
on success it inserts the messageObject (a database error is only logged)
and responds 200. -/
def sendMessagePost (msgs : List Message) (upstreamStatus : Nat)
    (mid userId toId content : String) (ts : Nat) : List Message × Nat :=
  if !(httpOk upstreamStatus) then (msgs, upstreamStatus)
  else
    match insertMessage msgs (sendMessageObject mid userId toId content ts) with
    | Except.ok s => (s, 200)
    | Except.error _ => (msgs, 200)

/-- handleSendMessage in the chat page (part_003): calls the send-message
route; when the response is not ok it inserts fallbackMessage directly into
the messages table (a failed fallback insert leaves the store as it was). -/
def handleSendMessage (msgs : List Message) (upstreamStatus : Nat)
    (mid fid userId toId content : String) (ts : Nat) : List Message :=
  let res := sendMessagePost msgs upstreamStatus mid userId toId content ts
  if httpOk res.2 then res.1
  else
    match insertMessage res.1 (fallbackMessageObject fid userId toId content ts) with
    | Except.ok s => s
    | Except.error _ => res.1

/-- Claim C8 counterexample: a failed send (upstream status 500) does write a
message row — the client fallback path inserts fallbackMessage — so the
message store is not unchanged across every code path triggered by a failed
send. -/
theorem send_failure_fallback_cex :
    handleSendMessage [] 500 "m0" "f1" "owner-1" "15551234567" "hi" 7
      = [fallbackMessageObject "f1" "owner-1" "15551234567" "hi" 7] ∧
    handleSendMessage [] 500 "m0" "f1" "owner-1" "15551234567" "hi" 7 ≠ [] := by
  refine ⟨rfl, ?_⟩
  decide

/-- Claim C8 (amended): on a non-2xx upstream response the send-message route
itself writes no row and returns the upstream status, but the chat page's
handleSendMessage then falls back to inserting a message row directly, so
the store gains the fallback row rather than staying unchanged. -/
theorem send_failure_paths_spec (msgs : List Message) (status : Nat)
    (mid fid userId toId content : String) (ts : Nat)
    (hstatus : httpOk status = false)
    (hfresh : msgs.any (fun x => x.id == (fallbackMessageObject fid userId toId content ts).id) = false) :
    sendMessagePost msgs status mid userId toId content ts = (msgs, status) ∧
    handleSendMessage msgs status mid fid userId toId content ts
      = msgs ++ [fallbackMessageObject fid userId toId content ts] := by
  have hroute : sendMessagePost msgs status mid userId toId content ts = (msgs, status) := by
    unfold sendMessagePost
    rw [hstatus]
    simp
  refine ⟨hroute, ?_⟩
  unfold handleSendMessage
  rw [hroute]
  simp only [hstatus, Bool.false_eq_true, if_false]
  unfold insertMessage
  rw [hfresh]
  simp

/-- Witness for Claim C8 at upstream status 500 and an empty store. -/
theorem send_failure_paths_spec_witness :
    sendMessagePost [] 500 "m0" "u1" "15551234567" "hello" 9 = ([], 500) ∧
    handleSendMessage [] 500 "m0" "f9" "u1" "15551234567" "hello" 9
      = [] ++ [fallbackMessageObject "f9" "u1" "15551234567" "hello" 9] :=
  send_failure_paths_spec [] 500 "m0" "f9" "u1" "15551234567" "hello" 9
    (by decide) (by decide)

/-- Claim C9 counterexample: when the configured business owner id equals the
sender's phone number, the webhook handler resolves the receiver to the
sender itself and the insert succeeds — a reachable store state contains a
message whose sender equals its receiver, so no append path validates
sender distinct from receiver. -/
theorem sender_equals_receiver_cex :
    resolveWebhookReceiver (some "15550001") [] "15550001" = "15550001" ∧
    insertMessage []
        (webhookMessageObject "wamid.SELF" "15550001"
          (resolveWebhookReceiver (some "15550001") [] "15550001") "hello" 10 "text")
      = Except.ok [webhookMessageObject "wamid.SELF" "15550001" "15550001" "hello" 10 "text"] ∧
    (webhookMessageObject "wamid.SELF" "15550001" "15550001" "hello" 10 "text").sender_id
      = (webhookMessageObject "wamid.SELF" "15550001" "15550001" "hello" 10 "text").receiver_id := by
  exact ⟨rfl, rfl, rfl⟩

/-- Claim C9 (amended): no append path compares sender and receiver before
inserting.  Whenever the configured business owner id equals the inbound
sender, the webhook builds a message with sender = receiver and the store
accepts it (only the id is checked). -/
theorem no_sender_receiver_validation_spec (msgs : List Message)
    (userIds : List String) (mid sender content mtype : String) (ts : Nat)
    (hfresh : msgs.any (fun x => x.id == mid) = false) :
    (webhookMessageObject mid sender
        (resolveWebhookReceiver (some sender) userIds sender) content ts mtype).receiver_id
      = (webhookMessageObject mid sender
          (resolveWebhookReceiver (some sender) userIds sender) content ts mtype).sender_id ∧
    insertMessage msgs
        (webhookMessageObject mid sender
          (resolveWebhookReceiver (some sender) userIds sender) content ts mtype)
      = Except.ok (msgs ++ [webhookMessageObject mid sender
          (resolveWebhookReceiver (some sender) userIds sender) content ts mtype]) := by
  refine ⟨rfl, ?_⟩
  unfold insertMessage
  rw [show (msgs.any (fun x => x.id == (webhookMessageObject mid sender
      (resolveWebhookReceiver (some sender) userIds sender) content ts mtype).id)) = false from hfresh]
  simp

/-- Witness for Claim C9 at a concrete webhook delivery in an empty store. -/
theorem no_sender_receiver_validation_spec_witness :
    (webhookMessageObject "wamid.W9" "15559999"
        (resolveWebhookReceiver (some "15559999") ["ops-1"] "15559999") "yo" 4 "text").receiver_id
      = (webhookMessageObject "wamid.W9" "15559999"
          (resolveWebhookReceiver (some "15559999") ["ops-1"] "15559999") "yo" 4 "text").sender_id ∧
    insertMessage []
        (webhookMessageObject "wamid.W9" "15559999"
          (resolveWebhookReceiver (some "15559999") ["ops-1"] "15559999") "yo" 4 "text")
      = Except.ok ([] ++ [webhookMessageObject "wamid.W9" "15559999"
          (resolveWebhookReceiver (some "15559999") ["ops-1"] "15559999") "yo" 4 "text"]) :=
  no_sender_receiver_validation_spec [] ["ops-1"] "wamid.W9" "15559999" "yo" "text" 4 (by decide)

/-- Claim C10 counterexample: the text send path omits is_read, so its row
takes the table default false, and storing such a row raises the unread
count of the (receiver = recipient, sender = owner) pair from 0 to 1 — an
outbound send does increase an unread count. -/
theorem outbound_text_unread_cex :
    (sendMessageObject "m1" "owner-1" "15551234567" "hi" 0).is_read = false ∧
    get_unread_count [sendMessageObject "m1" "owner-1" "15551234567" "hi" 0]
      "15551234567" "owner-1" = 1 ∧
    get_unread_count [] "15551234567" "owner-1" = 0 := by
  decide

/-- Claim C10 (amended): the template and broadcast insert paths store their
rows with is_read = true, but the plain text send path omits is_read and its
row defaults to false, so appending it always increments the unread count
computed for receiver = recipient and sender = owner by one. -/
theorem outbound_is_read_spec (msgs : List Message)
    (mid userId toId content : String) (ts : Nat) :
    (sendTemplateObject mid userId toId content ts).is_read = true ∧
    (broadcastTemplateObject mid userId toId content ts).is_read = true ∧
    (broadcastTextObject mid userId toId content ts).is_read = true ∧
    (sendMessageObject mid userId toId content ts).is_read = false ∧
    get_unread_count (msgs ++ [sendMessageObject mid userId toId content ts]) toId userId
      = get_unread_count msgs toId userId + 1 := by
  refine ⟨rfl, rfl, rfl, rfl, ?_⟩
  unfold get_unread_count
  rw [List.filter_append]
  simp [sendMessageObject]

/-- get_group_unread_count(p_group_id) from the schema dump, with the group
row resolved: SUM over the group's members of the COUNT of rows with
sender_id = member, receiver_id = the group's owner_id and is_read = false. -/
def get_group_unread_count (msgs : List Message) (memberIds : List String)
    (owner_id : String) : Nat :=
  (memberIds.map (fun uid =>
    (msgs.filter (fun m => m.sender_id == uid && m.receiver_id == owner_id && !m.is_read)).length)).sum

/-- Row of auth.users as used by the fixed get_group_members_with_details:
an account id and an optional phone column. -/
structure AuthUser where
  id : String
  phone : Option String
deriving DecidableEq, Repr

/-- SELECT phone FROM auth.users WHERE id = owner_id, as used by the fixed
get_group_members_with_details migration. -/
def auth_phone_of_owner (authUsers : List AuthUser) (owner_id : String) : Option String :=
  match authUsers.find? (fun a => a.id == owner_id) with
  | some a => a.phone
  | none => none

/-- The unread_count column of get_group_members_with_details in migration
20260108155500: COUNT of rows with sender_id = member and receiver_id equal
to the owner's phone resolved from auth.users; a NULL phone matches no row,
giving 0. -/
def get_group_members_details_unread (msgs : List Message) (authUsers : List AuthUser)
    (owner_id member_id : String) : Nat :=
  match auth_phone_of_owner authUsers owner_id with
  | none => 0
  | some p =>
    (msgs.filter (fun m => m.sender_id == member_id && m.receiver_id == p && !m.is_read)).length

/-- C5 counterexample message: member-1 has one unread message addressed to
the group owner's account id. -/
def g5msg : Message :=
  { id := "gm1", sender_id := "member-1", receiver_id := "owner-uuid-1",
    content := "q", timestamp := 1, is_sent_by_me := false,
    message_type := "text", is_read := false, read_at := none }

/-- Claim C5 counterexample: the group total counts member-1's unread message
against receiver = the owner's account id and reports 1, while the
member-listing function counts against the owner's auth phone and reports 0
for the same store — the per-member counts do not use the same predicate as
the group total. -/
theorem group_unread_identity_cex :
    get_group_unread_count [g5msg] ["member-1"] "owner-uuid-1" = 1 ∧
    get_group_members_details_unread [g5msg]
      [AuthUser.mk "owner-uuid-1" (some "15550001111")] "owner-uuid-1" "member-1" = 0 := by
  decide

/-- Messages realising the 2 + 3 + 0 scenario: memA has two unread messages
to owner-1, memB three (plus one already read), memC none. -/
def scenarioMsgs : List Message :=
  [ { id := "a1", sender_id := "memA", receiver_id := "owner-1", content := "1",
      timestamp := 1, is_sent_by_me := false, message_type := "text",
      is_read := false, read_at := none },
    { id := "a2", sender_id := "memA", receiver_id := "owner-1", content := "2",
      timestamp := 2, is_sent_by_me := false, message_type := "text",
      is_read := false, read_at := none },
    { id := "b1", sender_id := "memB", receiver_id := "owner-1", content := "3",
      timestamp := 3, is_sent_by_me := false, message_type := "text",
      is_read := false, read_at := none },
    { id := "b2", sender_id := "memB", receiver_id := "owner-1", content := "4",
      timestamp := 4, is_sent_by_me := false, message_type := "text",
      is_read := false, read_at := none },
    { id := "b3", sender_id := "memB", receiver_id := "owner-1", content := "5",
      timestamp := 5, is_sent_by_me := false, message_type := "text",
      is_read := false, read_at := none },
    { id := "b4", sender_id := "memB", receiver_id := "owner-1", content := "6",
      timestamp := 6, is_sent_by_me := false, message_type := "text",
      is_read := true, read_at := some 7 },
    { id := "c1", sender_id := "memC", receiver_id := "other-2", content := "7",
      timestamp := 8, is_sent_by_me := false, message_type := "text",
      is_read := false, read_at := none } ]

/-- Claim C5 (amended): get_group_unread_count equals the sum over the
members of get_unread_count(owner_id, member) — its inner count is the
canonical predicate with receiver = the group's owner_id — and the
three-member scenario with 2, 3 and 0 unread messages totals 5; the
member-listing function, however, resolves the receiving identity through
the owner's auth phone instead (see the counterexample). -/
theorem group_unread_total_spec (msgs : List Message) (memberIds : List String)
    (owner : String) :
    get_group_unread_count msgs memberIds owner
      = (memberIds.map (fun uid => get_unread_count msgs owner uid)).sum ∧
    get_group_unread_count scenarioMsgs ["memA", "memB", "memC"] "owner-1" = 5 := by
  constructor
  · unfold get_group_unread_count get_unread_count
    refine congrArg List.sum (List.map_congr_left ?_)
    intro uid _
    refine congrArg List.length (List.filter_congr ?_)
    intro m _
    exact congrArg (fun x => x && !m.is_read)
      (Bool.and_comm (m.sender_id == uid) (m.receiver_id == owner))
  · decide

/-- Entry of the user_conversations feed as consumed by UserList
(user-list.tsx): unread_count and last_message_time may be absent; absence
is modelled by 0 and none, matching the JavaScript falsy fallbacks. -/
structure ChatUser where
  id : String
  name : String
  last_active : Nat
  last_message_time : Option Nat
  unread_count : Nat
deriving DecidableEq, Repr

/-- The time key used by the sortedUsers comparator:
new Date(a.last_message_time || a.last_active).getTime(). -/
def effectiveTime (u : ChatUser) : Nat :=
  u.last_message_time.getD u.last_active

/-- Whether (a.unread_count || 0) > 0. -/
def hasUnread (u : ChatUser) : Bool :=
  decide (0 < u.unread_count)

/-- The sortedUsers comparator of user-list.tsx as an ordering relation:
userBefore a b holds when the comparator places a at or before b, i.e. when
a has unread messages and b has none, or both are in the same unread tier
and a's effective time is at least b's. -/
def userBefore (a b : ChatUser) : Prop :=
  (hasUnread a = true ∧ hasUnread b = false) ∨
  (hasUnread a = hasUnread b ∧ effectiveTime b ≤ effectiveTime a)

instance : DecidableRel userBefore := fun a b => by
  unfold userBefore
  infer_instance

/-- Numeric rank of the unread tier. -/
def unreadRank (u : ChatUser) : Nat :=
  if hasUnread u then 1 else 0

lemma userBefore_iff (a b : ChatUser) :
    userBefore a b ↔
      (unreadRank b < unreadRank a ∨
        (unreadRank a = unreadRank b ∧ effectiveTime b ≤ effectiveTime a)) := by
  unfold userBefore unreadRank
  by_cases ha : hasUnread a <;> by_cases hb : hasUnread b <;> simp [ha, hb]

instance : IsTotal ChatUser userBefore :=
  ⟨fun a b => by
    rw [userBefore_iff, userBefore_iff]
    omega⟩

instance : IsTrans ChatUser userBefore :=
  ⟨fun a b c hab hbc => by
    rw [userBefore_iff] at hab hbc ⊢
    omega⟩

/-- sortedUsers of user-list.tsx: drop the current user, then sort with the
comparator that puts unread conversations first and orders each tier by
most recent effective time. -/
def sortedUsers (users : List ChatUser) (currentUserId : String) : List ChatUser :=
  List.insertionSort userBefore (users.filter (fun u => u.id != currentUserId))

/-- Claim C6: in the rendered conversation list every conversation with
nonzero unread precedes every all-read one (pairwise, a later element with
unread forces the earlier one to have unread too); within the same tier the
earlier element has the later effective message time; the list is a
permutation of the non-self users; and a party with no messages at all is
keyed by its last-activity timestamp. -/
theorem sortedUsers_ordering_spec (users : List ChatUser) (cur : String)
    (uid nm : String) (la uc : Nat) :
    (sortedUsers users cur).Pairwise
      (fun a b => (hasUnread b = true → hasUnread a = true) ∧
        (hasUnread a = hasUnread b → effectiveTime b ≤ effectiveTime a)) ∧
    (sortedUsers users cur).Perm (users.filter (fun u => u.id != cur)) ∧
    effectiveTime (ChatUser.mk uid nm la none uc) = la := by
  refine ⟨?_, List.perm_insertionSort userBefore _, rfl⟩
  have hs := List.sorted_insertionSort userBefore (users.filter (fun u => u.id != cur))
  refine hs.imp ?_
  intro a b h
  constructor
  · intro hb
    rcases h with ⟨_, hbf⟩ | ⟨heq, _⟩
    · rw [hb] at hbf
      cases hbf
    · rw [heq, hb]
  · intro heq
    rcases h with ⟨hat, hbf⟩ | ⟨_, hle⟩
    · rw [hat, hbf] at heq
      cases heq
    · exact hle

/-- The digit characters of a string, i.e. phone.replace of all non-digits
with the empty string in the parse-excel route. -/
def digitsOf (s : String) : List Char :=
  s.data.filter Char.isDigit

/-- validatePhoneNumber from the parse-excel route: the cleaned digit string
must have at least 10 digits — checked first — and must not start with 0;
the rejection reason strings are those of the source. -/
def validatePhoneNumber (phone : String) : Option String :=
  if (digitsOf phone).length < 10 then some "Less than 10 digits"
  else if (digitsOf phone).head? == some '0' then some "Starts with 0"
  else none

/-- One (phone, name) row handed to the parse-excel POST body by the
spreadsheet parser. -/
structure ImportRow where
  phone : String
  name : String
deriving DecidableEq, Repr

/-- Rejected entry recorded by the parse-excel route. -/
structure InvalidNumber where
  phone : String
  reason : String
deriving DecidableEq, Repr

/-- Row of the users table as fetched by the parse-excel route. -/
structure DbUser where
  id : String
  name : String
  custom_name : Option String
  whatsapp_name : Option String
deriving DecidableEq, Repr

/-- Entry of the matchedUsers result array. -/
structure MatchedUser where
  userId : String
  name : String
  phone : String
  isNew : Bool
deriving DecidableEq, Repr

/-- The first pass of the parse-excel POST handler: rows with an empty phone
cell are skipped; each remaining phone is validated, valid rows are kept in
order and invalid ones recorded with their reason. -/
def collectPhones : List ImportRow → List ImportRow × List InvalidNumber
  | [] => ([], [])
  | r :: rest =>
    let tail := collectPhones rest
    if r.phone = "" then tail
    else
      match validatePhoneNumber r.phone with
      | none => (r :: tail.1, tail.2)
      | some reason => (tail.1, InvalidNumber.mk r.phone reason :: tail.2)

/-- JavaScript a || b for an optional string: null and the empty string are
falsy. -/
def jsOrOpt (a : Option String) (b : String) : String :=
  match a with
  | some s => if s = "" then b else s
  | none => b

/-- JavaScript a || b for strings: the empty string is falsy. -/
def jsOrStr (a b : String) : String :=
  if a = "" then b else a

/-- Map.set semantics of the userMap: overwrite the value in place when the
key exists, else append the new entry. -/
def mapSet (m : List (String × DbUser)) (k : String) (v : DbUser) : List (String × DbUser) :=
  if m.any (fun e => e.1 == k) then m.map (fun e => if e.1 == k then (k, v) else e)
  else m ++ [(k, v)]

/-- The cleaned id as a string. -/
def strOfDigits (s : String) : String :=
  String.mk (digitsOf s)

/-- userMap construction of the parse-excel route: each user is stored under
its id, and also under its cleaned id when that is nonempty and different. -/
def buildUserMap (users : List DbUser) : List (String × DbUser) :=
  users.foldl
    (fun m u =>
      let m1 := mapSet m u.id u
      let c := strOfDigits u.id
      if c ≠ "" ∧ c ≠ u.id then mapSet m1 c u else m1)
    []

/-- userMap.get. -/
def mapGet (m : List (String × DbUser)) (k : String) : Option DbUser :=
  (m.find? (fun e => e.1 == k)).map (fun e => e.2)

/-- The cleaned-suffix fallback match of the parse-excel route: scan the map
entries in order for one whose cleaned key equals the cleaned phone or such
that either cleaned string is a suffix of the other. -/
def suffixMatch (umap : List (String × DbUser)) (phone : String) : Option DbUser :=
  (umap.find? (fun e =>
    digitsOf e.1 == digitsOf phone ||
    List.isSuffixOf (digitsOf phone) (digitsOf e.1) ||
    List.isSuffixOf (digitsOf e.1) (digitsOf phone))).map (fun e => e.2)

/-- The matching loop of the parse-excel route over the validated rows:
phones already seen in the batch are skipped; a row matched exactly or by
the cleaned-suffix fallback yields an existing MatchedUser whose display
name follows custom_name, whatsapp_name, name, row name in that order;
otherwise a new MatchedUser keyed by the phone is produced together with
the (id, name) pair queued for insertion. -/
def matchPhonesAux (umap : List (String × DbUser)) :
    List ImportRow → List String → List MatchedUser × List (String × String)
  | [], _ => ([], [])
  | r :: rest, seen =>
    if seen.contains r.phone then matchPhonesAux umap rest seen
    else
      let nm := jsOrStr r.name r.phone
      let found :=
        match mapGet umap r.phone with
        | some u => some u
        | none => suffixMatch umap r.phone
      let tail := matchPhonesAux umap rest (r.phone :: seen)
      match found with
      | some u =>
        (MatchedUser.mk u.id (jsOrOpt u.custom_name (jsOrOpt u.whatsapp_name (jsOrStr u.name nm)))
            r.phone false :: tail.1,
          tail.2)
      | none =>
        (MatchedUser.mk r.phone (jsOrStr nm r.phone) r.phone true :: tail.1,
          (r.phone, jsOrStr nm r.phone) :: tail.2)

/-- Result payload of the parse-excel POST route; the new field of the
source JSON is rendered as newUsers. -/
structure ParseResult where
  total : Nat
  existing : Nat
  newUsers : Nat
  invalid : Nat
  users : List MatchedUser
  invalidNumbers : List InvalidNumber
deriving DecidableEq, Repr

/-- The parse-excel POST handler over already-parsed rows: validate and
split, fail when no valid phone survives, otherwise match every unique
valid phone against the existing users and report the totals exactly as the
route's JSON response does. -/
def parseExcelPost (existingUsers : List DbUser) (rows : List ImportRow) :
    Except String ParseResult :=
  let collected := collectPhones rows
  if collected.1.length = 0 then Except.error "No valid phone numbers found in file."
  else
    let umap := buildUserMap existingUsers
    let matched := matchPhonesAux umap collected.1 []
    Except.ok
      (ParseResult.mk matched.1.length
        (matched.1.filter (fun u => !u.isNew)).length
        (matched.1.filter (fun u => u.isNew)).length
        collected.2.length
        matched.1
        collected.2)

/-- The three rows of the Claim C7 scenario. -/
def rows7 : List ImportRow :=
  [ImportRow.mk "15551234567" "Alice", ImportRow.mk "0159999" "Bad",
    ImportRow.mk "15551234567" "Alice-dup"]

/-- The result the pipeline actually produces for the Claim C7 scenario. -/
def res7 : ParseResult :=
  { total := 1, existing := 0, newUsers := 1, invalid := 1,
    users := [MatchedUser.mk "15551234567" "Alice" "15551234567" true],
    invalidNumbers := [InvalidNumber.mk "0159999" "Less than 10 digits"] }

/-- Claim C7 counterexample: the rejected row 0159999 has only 7 digits, and
the length check runs before the leading-zero check, so its recorded reason
is Less than 10 digits — not the claimed starts with 0. -/
theorem import_reason_cex :
    validatePhoneNumber "0159999" = some "Less than 10 digits" ∧
    parseExcelPost [] rows7 = Except.ok res7 ∧
    res7.invalidNumbers = [InvalidNumber.mk "0159999" "Less than 10 digits"] ∧
    ("Less than 10 digits" : String) ≠ "starts with 0" := by
  refine ⟨rfl, rfl, rfl, ?_⟩
  decide

/-- Claim C7 (amended): a phone is rejected exactly when its digit string has
fewer than 10 digits or starts with 0, the batch is deduplicated, and on the
scenario rows the result reports total = 1 valid unique row resolving to the
single new party 15551234567 and invalid = 1 — but with reason Less than 10
digits, because the 7-digit row trips the length check that precedes the
leading-zero check. -/
theorem import_pipeline_spec :
    (∀ p : String, (validatePhoneNumber p).isSome
      = (decide ((digitsOf p).length < 10) || ((digitsOf p).head? == some '0'))) ∧
    parseExcelPost [] rows7 = Except.ok res7 ∧
    res7.total = 1 ∧
    res7.invalid = 1 ∧
    res7.users = [MatchedUser.mk "15551234567" "Alice" "15551234567" true] := by
  refine ⟨?_, rfl, rfl, rfl, rfl⟩
  intro p
  unfold validatePhoneNumber
  by_cases h1 : (digitsOf p).length < 10
  · simp [h1]
  · by_cases h2 : (digitsOf p).head? == some '0' <;> simp [h1, h2]

end Waba
